import Mathlib

/-!
Verification of the python-oci-packager specification against a shallow
embedding of its Rust sources (src/layer.rs, src/cache.rs, src/builder.rs,
src/manifest.rs, src/image.rs).

Conventions of the embedding:
* Byte strings are `List Nat` with every byte `< 256`.
* Rust `String`/`&str` values are Lean `String`; the strings handled by this
  program are ASCII, so UTF-8 byte encoding is modelled as `Char.toNat`.
* `HashMap` is an association list; `SystemTime` is a `Nat` instant passed in
  as a `now` parameter; the filesystem is an association list from absolute
  path to file bytes.
* External crates keep their observable behaviour: `sha2` is embedded as a
  full executable SHA-256 over byte lists; `bincode` (v1 default options:
  fixed little-endian `u64` lengths) is embedded concretely for `Layer`;
  `zstd` compression and `serde_json` rendering are injected as function
  parameters, since only the places where the code applies them matter to
  the claims.
* `async fn` bodies have no internal suspension visible to the claims, so
  they are embedded as pure functions threading the filesystem state.
-/

/-! ## Bytes, hex, SHA-256 (embedding of the `sha2` crate and `format!("sha256:{:x}", _)`) -/

def mod32 (x : Nat) : Nat := x % 4294967296

def rotr32 (n x : Nat) : Nat := x / 2 ^ n + (x % 2 ^ n) * 2 ^ (32 - n)

def not32 (x : Nat) : Nat := 4294967295 - x

def ch32 (e f g : Nat) : Nat := (e &&& f) ^^^ (not32 e &&& g)

def maj32 (a b c : Nat) : Nat := (a &&& b) ^^^ (a &&& c) ^^^ (b &&& c)

def bigSigma0 (x : Nat) : Nat := rotr32 2 x ^^^ rotr32 13 x ^^^ rotr32 22 x

def bigSigma1 (x : Nat) : Nat := rotr32 6 x ^^^ rotr32 11 x ^^^ rotr32 25 x

def smallSigma0 (x : Nat) : Nat := rotr32 7 x ^^^ rotr32 18 x ^^^ (x >>> 3)

def smallSigma1 (x : Nat) : Nat := rotr32 17 x ^^^ rotr32 19 x ^^^ (x >>> 10)

def sha256K : List Nat :=
  [1116352408, 1899447441, 3049323471, 3921009573, 961987163, 1508970993,
   2453635748, 2870763221, 3624381080, 310598401, 607225278, 1426881987,
   1925078388, 2162078206, 2614888103, 3248222580, 3835390401, 4022224774,
   264347078, 604807628, 770255983, 1249150122, 1555081692, 1996064986,
   2554220882, 2821834349, 2952996808, 3210313671, 3336571891, 3584528711,
   113926993, 338241895, 666307205, 773529912, 1294757372, 1396182291,
   1695183700, 1986661051, 2177026350, 2456956037, 2730485921, 2820302411,
   3259730800, 3345764771, 3516065817, 3600352804, 4094571909, 275423344,
   430227734, 506948616, 659060556, 883997877, 958139571, 1322822218,
   1537002063, 1747873779, 1955562222, 2024104815, 2227730452, 2361852424,
   2428436474, 2756734187, 3204031479, 3329325298]

def sha256H0 : List Nat :=
  [1779033703, 3144134277, 1013904242, 2773480762,
   1359893119, 2600822924, 528734635, 1541459225]

/-- Big-endian byte rendering of `n` into `k` bytes. -/
def toBEBytes : Nat → Nat → List Nat
  | 0, _ => []
  | k + 1, n => toBEBytes k (n / 256) ++ [n % 256]

def sha256Pad (msg : List Nat) : List Nat :=
  msg ++ [128] ++ List.replicate ((119 - msg.length % 64) % 64) 0 ++ toBEBytes 8 (8 * msg.length)

def bytesToWords : List Nat → List Nat
  | b0 :: b1 :: b2 :: b3 :: rest => (((b0 * 256 + b1) * 256 + b2) * 256 + b3) :: bytesToWords rest
  | _ => []

def chunks64Go : Nat → List Nat → List (List Nat)
  | 0, _ => []
  | _, [] => []
  | fuel + 1, l => l.take 64 :: chunks64Go fuel (l.drop 64)

def chunks64 (l : List Nat) : List (List Nat) := chunks64Go l.length l

def schedStep (ws : List Nat) : List Nat :=
  let n := ws.length
  ws ++ [mod32 (smallSigma1 (ws.getD (n - 2) 0) + ws.getD (n - 7) 0 + smallSigma0 (ws.getD (n - 15) 0) +
    ws.getD (n - 16) 0)]

def buildSchedule : Nat → List Nat → List Nat
  | 0, ws => ws
  | k + 1, ws => buildSchedule k (schedStep ws)

def compressRound (k w : Nat) : List Nat → List Nat
  | [a, b, c, d, e, f, g, h] =>
    let t1 := mod32 (h + bigSigma1 e + ch32 e f g + k + w)
    let t2 := mod32 (bigSigma0 a + maj32 a b c)
    [mod32 (t1 + t2), a, b, c, mod32 (d + t1), e, f, g]
  | st => st

def compressBlock (h : List Nat) (block : List Nat) : List Nat :=
  let ws := buildSchedule 48 (bytesToWords block)
  let st := (sha256K.zip ws).foldl (fun s kw => compressRound kw.1 kw.2 s) h
  List.zipWith (fun x y => mod32 (x + y)) h st

/-- SHA-256 of a byte list, as the 32-byte digest. -/
def sha256 (msg : List Nat) : List Nat :=
  ((chunks64 (sha256Pad msg)).foldl compressBlock sha256H0).flatMap (toBEBytes 4)

def hexDigitChar (n : Nat) : Char := if n < 10 then Char.ofNat (48 + n) else Char.ofNat (87 + n)

def hexByte (b : Nat) : List Char := [hexDigitChar (b / 16), hexDigitChar (b % 16)]

/-- Lowercase hex rendering of a byte list, as in Rust formatting of a digest with x. -/
def hexOfBytes (bs : List Nat) : String := String.mk (bs.flatMap hexByte)

/-- The digest string the sources build everywhere: sha256 prefix plus lowercase hex. -/
def sha256Hex (msg : List Nat) : String := "sha256:" ++ hexOfBytes (sha256 msg)

/-- FIPS 180-4 test vector: SHA-256 of the empty message. -/
example :
    sha256Hex [] = "sha256:e3b0c44298fc1c149afbf4c8996fb92427ae41e4649b934ca495991b7852b855" := by
  decide

/-- FIPS 180-4 test vector: SHA-256 of the three bytes of the word abc. -/
example :
    sha256Hex [97, 98, 99] =
      "sha256:ba7816bf8f01cfea414140de5dae2223b00361a396177a9cb410ff61f20015ad" := by
  decide

/-! ## String utilities (kernel-evaluable surrogates for the Rust `str` methods used) -/

/-- Rust `str::split(sep)` for a single-character separator, over char lists. -/
def splitOnChar (c : Char) : List Char → List (List Char)
  | [] => [[]]
  | x :: xs =>
    let r := splitOnChar c xs
    if x = c then [] :: r
    else
      match r with
      | h :: t => (x :: h) :: t
      | [] => [[x]]

/-- Rust `str::split(sep)` lifted to `String`. -/
def strSplit (s : String) (c : Char) : List String := (splitOnChar c s.data).map String.mk

/-- Rust `str::contains(char)`. -/
def strContains (s : String) (c : Char) : Bool := s.data.contains c

/-- Rust `str::is_empty`. -/
def strIsEmpty (s : String) : Bool := s.data.isEmpty

/-- Rust `str::starts_with`. -/
def strStartsWith (s pre : String) : Bool := pre.data.isPrefixOf s.data

/-- Rust `Vec::join(" ")` on strings. -/
def joinSpace : List String → String
  | [] => ""
  | [s] => s
  | s :: rest => s ++ " " ++ joinSpace rest

/-- ASCII byte encoding of a string (the strings this program handles are ASCII). -/
def strBytes (s : String) : List Nat := s.data.map Char.toNat

/-- Inverse of `strBytes` on ASCII bytes. -/
def bytesToStr (bs : List Nat) : String := String.mk (bs.map Char.ofNat)

/-- One step of Rust `str::trim_start_matches("sha256:")`, fuel-driven. -/
def trimShaGo : Nat → List Char → List Char
  | 0, s => s
  | fuel + 1, s =>
    if "sha256:".data.isPrefixOf s then trimShaGo fuel (s.drop 7) else s

/-- Rust `str::trim_start_matches("sha256:")`: removes every leading occurrence. -/
def trimShaStr (s : String) : String := String.mk (trimShaGo s.data.length s.data)

example : trimShaStr "sha256:abcd" = "abcd" := by decide

example : strSplit "registry.example.com/ns/img:tag" '/' = ["registry.example.com", "ns", "img:tag"] := by
  decide

/-! ## Data model (src/layer.rs, src/image.rs, external oci_spec::image::Config) -/

/-- `Layer` from src/layer.rs. `annotations` is the `HashMap<String, String>` as an
association list. -/
structure Layer where
  media_type : String
  digest : String
  size : Nat
  compressed_size : Nat
  data : List Nat
  diff_id : String
  annotations : List (String × String)
deriving DecidableEq, Repr

/-- `ImageConfig` from src/image.rs; the `HashMap<String, HashMap<(),()>>` port/volume
sets are kept as their key lists. -/
structure ImageConfig where
  env : List String := []
  cmd : List String := []
  working_dir : String := ""
  entrypoint : List String := []
  labels : List (String × String) := []
  exposed_ports : List String := []
  volumes : List String := []
deriving DecidableEq, Repr

/-- The external `oci_spec::image::Config`, restricted to the fields
src/builder.rs touches (`set_working_dir`, `set_cmd`, `set_env`, `set_entrypoint`);
`Config::default()` has every field `None`. -/
structure OCIConfig where
  working_dir : Option String := none
  cmd : Option (List String) := none
  env : Option (List String) := none
  entrypoint : Option (List String) := none
deriving DecidableEq, Repr

/-! ## src/layer.rs: `Layer::compress_data` and `Layer::from_dir`

`from_dir` first walks the directory and tars every regular file into an
uncompressed archive byte stream (external `walkdir` + `tar` crates); the
embedding takes that archive byte stream as its input.  The external `zstd`
encoder is injected as `zstdCompress level data`; line 64 of src/layer.rs
constructs it with the fixed level 3. -/

/-- src/layer.rs lines 63-67: `zstd::Encoder::new(Vec::new(), 3)` then write-all. -/
def Layer.compress_data (zstdCompress : Nat → List Nat → List Nat) (data : List Nat) : List Nat :=
  zstdCompress 3 data

/-- src/layer.rs lines 41-60 of `Layer::from_dir`, from the tar archive bytes on. -/
def Layer.from_dir (zstdCompress : Nat → List Nat → List Nat) (archive : List Nat) : Layer :=
  let data := archive
  let compressed := Layer.compress_data zstdCompress data
  let digest := sha256Hex compressed
  let diff_id := sha256Hex data
  { media_type := "application/vnd.oci.image.layer.v1.tar+gzip"
    digest := digest
    size := data.length
    compressed_size := compressed.length
    data := compressed
    diff_id := diff_id
    annotations := [] }

/-! ## src/builder.rs: reference parsing (`parse_image_reference`, `split_tag`) -/

/-- src/builder.rs lines 695-702: `split_tag`. -/
def split_tag (repo_tag : String) : Except String (String × String) :=
  match strSplit repo_tag ':' with
  | [p0] => .ok (p0, "latest")
  | [p0, p1] => .ok (p0, p1)
  | _ => .error "Invalid repository:tag format"

/-- src/builder.rs lines 656-693: `parse_image_reference`. -/
def parse_image_reference (reference : String) : Except String (String × String × String) :=
  match strSplit reference '/' with
  | [p0] =>
    match split_tag p0 with
    | .error e => .error e
    | .ok (repo, tag) => .ok ("registry-1.docker.io", "library/" ++ repo, tag)
  | [p0, p1] =>
    if strContains p0 '.' || strContains p0 ':' then
      match split_tag p1 with
      | .error e => .error e
      | .ok (repo, tag) => .ok (p0, repo, tag)
    else
      match split_tag p1 with
      | .error e => .error e
      | .ok (repo, tag) => .ok ("registry-1.docker.io", p0 ++ "/" ++ repo, tag)
  | [p0, p1, p2] =>
    match split_tag p2 with
    | .error e => .error e
    | .ok (repo, tag) => .ok (p0, p1 ++ "/" ++ repo, tag)
  | _ => .error ("Invalid image reference format: " ++ reference)

/-- Tag splitting in the words of claim C5: a missing tag defaults to latest and a
repository:tag portion containing more than one colon fails. -/
def splitTagClaim (repo_tag : String) : Except String (String × String) :=
  match strSplit repo_tag ':' with
  | [name] => .ok (name, "latest")
  | [name, tag] => .ok (name, tag)
  | _ => .error "Invalid repository:tag format"

/-- Reference parsing in the words of claim C5, case by segment count. -/
def parseReferenceClaim (reference : String) : Except String (String × String × String) :=
  match strSplit reference '/' with
  | [s1] =>
    match splitTagClaim s1 with
    | .error e => .error e
    | .ok (name, tag) => .ok ("registry-1.docker.io", "library/" ++ name, tag)
  | [s1, s2] =>
    if strContains s1 '.' || strContains s1 ':' then
      match splitTagClaim s2 with
      | .error e => .error e
      | .ok (name, tag) => .ok (s1, name, tag)
    else
      match splitTagClaim s2 with
      | .error e => .error e
      | .ok (name, tag) => .ok ("registry-1.docker.io", s1 ++ "/" ++ name, tag)
  | [s1, s2, s3] =>
    match splitTagClaim s3 with
    | .error e => .error e
    | .ok (name, tag) => .ok (s1, s2 ++ "/" ++ name, tag)
  | _ => .error ("Invalid image reference format: " ++ reference)

/-! ## src/builder.rs lines 137-178: `PythonImageBuilder::new`

Filesystem probes (`exists`, `is_dir`, parent lookup) are injected as booleans. -/

structure Cache0Stub where
  cache_dir : String
deriving DecidableEq, Repr

structure PythonImageBuilder where
  project_path : String
  output_path : String
  base_image : String
  config : ImageConfig
  cache : Cache0Stub
deriving DecidableEq, Repr

/-- src/builder.rs lines 137-178: the constructor validation chain. -/
def PythonImageBuilder.new (projectExists projectIsDir hasParent parentExists : Bool)
    (project_path output_path base_image : String) (config : ImageConfig)
    (cache : Cache0Stub) : Except String PythonImageBuilder :=
  if !projectExists then
    .error ("Project path does not exist: " ++ project_path)
  else if !projectIsDir then
    .error ("Project path is not a directory: " ++ project_path)
  else if hasParent && !parentExists then
    .error ("Output parent path does not exist: " ++ output_path)
  else if strIsEmpty base_image || (strContains base_image '/' || strContains base_image '\\') then
    .error ("Invalid base image name: " ++ base_image)
  else
    .ok { project_path, output_path, base_image, config, cache }

/-! ## src/builder.rs lines 364-400: `generate_config` -/

/-- One iteration of the merge loop in `generate_config` (src/builder.rs lines 368-382):
the accumulated env list plus the partially built final config. -/
def generateConfigStep (acc : List String × OCIConfig) (config : ImageConfig) :
    List String × OCIConfig :=
  let env := if !config.env.isEmpty then acc.1 ++ config.env else acc.1
  let fc := if !strIsEmpty config.working_dir then
    { acc.2 with working_dir := some config.working_dir } else acc.2
  let fc := if !config.cmd.isEmpty then { fc with cmd := some config.cmd } else fc
  (env, fc)

/-- src/builder.rs lines 364-400: `generate_config`.  `selfConfig` is the builder's own
`self.config`, whose `entrypoint` names the script run by the fixed wrapper. -/
def generate_config (selfConfig : ImageConfig) (configs : List ImageConfig) : OCIConfig :=
  let r := configs.foldl generateConfigStep ([], {})
  let env := r.1 ++ ["PYTHONUNBUFFERED=1", "PYTHONDONTWRITEBYTECODE=1", "PYTHONPATH=/app/deps:/app"]
  let final_config := { r.2 with env := some env }
  { final_config with
    entrypoint := some ["/bin/sh", "-c",
      "source /venv/bin/activate && python /app/" ++ joinSpace selfConfig.entrypoint] }

/-! ## src/builder.rs lines 496-580: layer verification -/

/-- src/builder.rs lines 573-580: `is_valid_media_type`. -/
def is_valid_media_type (media_type : String) : Bool :=
  media_type == "application/vnd.oci.image.layer.v1.tar" ||
    media_type == "application/vnd.oci.image.layer.v1.tar+gzip"

/-- src/builder.rs lines 524-570: `verify_single_layer`.  The outer `Result` never
fails; violations come back as the inner `Except`. -/
def verify_single_layer (layer : Layer) : Except String (Except String Unit) :=
  if !is_valid_media_type layer.media_type then
    .ok (.error ("Invalid media type: " ++ layer.media_type))
  else if layer.size == 0 then
    .ok (.error "Layer size cannot be zero")
  else
    let calculated_digest := sha256Hex layer.data
    if calculated_digest != layer.digest then
      .ok (.error ("Layer digest mismatch: expected " ++ layer.digest ++ ", calculated " ++
        calculated_digest))
    else if !strIsEmpty layer.diff_id && !strStartsWith layer.diff_id "sha256:" then
      .ok (.error "Invalid diff_id format")
    else
      .ok (.ok ())

/-- src/builder.rs lines 497-505: the duplicate-digest scan with its `HashSet` of
already seen digests. -/
def verifyDupScan : List Layer → List String → Except String Unit
  | [], _ => .ok ()
  | layer :: rest, seen =>
    if seen.contains layer.digest then
      .error ("Duplicate layer detected with digest: " ++ layer.digest)
    else
      verifyDupScan rest (layer.digest :: seen)

/-- src/builder.rs lines 514-518: the loop returning the first inner violation. -/
def firstInnerError : List (Except String Unit) → Except String Unit
  | [] => .ok ()
  | .error e :: _ => .error ("Layer verification failed: " ++ e)
  | .ok () :: rest => firstInnerError rest

/-- `futures::future::try_join_all` over the verification futures (src/builder.rs
lines 507-512): collects all outer results in order, failing on the first outer
error. -/
def tryJoinAll : List Layer → Except String (List (Except String Unit))
  | [] => .ok []
  | l :: rest =>
    match verify_single_layer l with
    | .error e => .error e
    | .ok r =>
      match tryJoinAll rest with
      | .error e => .error e
      | .ok rs => .ok (r :: rs)

/-- src/builder.rs lines 496-521: `verify_layers`. -/
def verify_layers (layers : List Layer) : Except String Unit :=
  match verifyDupScan layers [] with
  | .error e => .error e
  | .ok () =>
    match tryJoinAll layers with
    | .error e => .error e
    | .ok results => firstInnerError results

/-! ## Claim C2: the field invariants of `Layer::from_dir` -/

/-- C2: every `Layer` returned by `Layer::from_dir` has `digest` equal to the sha256
prefix plus the hex sha256 of its (compressed) `data` field, `diff_id` computed over
the uncompressed archive, the gzip-compressed OCI layer media type, `size` the
uncompressed length and `compressed_size` the length of `data`. -/
theorem from_dir_field_invariants (zstdCompress : Nat → List Nat → List Nat)
    (archive : List Nat) :
    (Layer.from_dir zstdCompress archive).digest =
      "sha256:" ++ hexOfBytes (sha256 (Layer.from_dir zstdCompress archive).data) ∧
    (Layer.from_dir zstdCompress archive).data = Layer.compress_data zstdCompress archive ∧
    (Layer.from_dir zstdCompress archive).diff_id = "sha256:" ++ hexOfBytes (sha256 archive) ∧
    (Layer.from_dir zstdCompress archive).media_type =
      "application/vnd.oci.image.layer.v1.tar+gzip" ∧
    (Layer.from_dir zstdCompress archive).size = archive.length ∧
    (Layer.from_dir zstdCompress archive).compressed_size =
      (Layer.compress_data zstdCompress archive).length :=
  ⟨rfl, rfl, rfl, rfl, rfl, rfl⟩

/-! ## Claim C9: fixed zstd level 3 behind a gzip media type -/

/-- C9: `from_dir` stores in `data` exactly the output of the zstd encoder at the fixed
level 3 while declaring the gzip-compressed OCI media type, and because the level is
fixed, equal archive bytes give equal layers and hence equal digests. -/
theorem from_dir_zstd_level3_gzip_label (zstdCompress : Nat → List Nat → List Nat)
    (archive archive2 : List Nat) (h : archive = archive2) :
    (Layer.from_dir zstdCompress archive).data = Layer.compress_data zstdCompress archive ∧
    Layer.compress_data zstdCompress archive = zstdCompress 3 archive ∧
    (Layer.from_dir zstdCompress archive).media_type =
      "application/vnd.oci.image.layer.v1.tar+gzip" ∧
    Layer.from_dir zstdCompress archive = Layer.from_dir zstdCompress archive2 ∧
    (Layer.from_dir zstdCompress archive).digest = (Layer.from_dir zstdCompress archive2).digest :=
  ⟨rfl, rfl, rfl, by rw [h], by rw [h]⟩

/-- Witness for C9 at the identity encoder and a one-byte archive. -/
theorem from_dir_zstd_level3_gzip_label_witness :
    (Layer.from_dir (fun _ d => d) [7]).data = Layer.compress_data (fun _ d => d) [7] ∧
    Layer.compress_data (fun _ d => d) [7] = (fun (_ : Nat) (d : List Nat) => d) 3 [7] ∧
    (Layer.from_dir (fun _ d => d) [7]).media_type =
      "application/vnd.oci.image.layer.v1.tar+gzip" ∧
    Layer.from_dir (fun _ d => d) [7] = Layer.from_dir (fun _ d => d) [7] ∧
    (Layer.from_dir (fun _ d => d) [7]).digest = (Layer.from_dir (fun _ d => d) [7]).digest :=
  from_dir_zstd_level3_gzip_label (fun _ d => d) [7] [7] rfl
/-! ## Claim C5: reference parsing -/

/-- C5: `parse_image_reference` behaves exactly as the claim describes case by
segment count (with `latest` tag defaulting and more than one colon failing), and in
particular maps `python` to the Docker Hub library repository at tag `latest`. -/
theorem parse_image_reference_spec (reference : String) :
    parse_image_reference reference = parseReferenceClaim reference ∧
    parse_image_reference "python" =
      .ok ("registry-1.docker.io", "library/python", "latest") :=
  ⟨rfl, rfl⟩

/-! ## Claim C8: constructor validation of the base-image name -/

/-- C8: `PythonImageBuilder::new` returns an error for every base-image string that is
empty or contains a slash or backslash, whatever the filesystem probes say; hence any
reference with two or more slash-separated segments is rejected at construction. -/
theorem new_rejects_invalid_base_image (projectExists projectIsDir hasParent parentExists : Bool)
    (project_path output_path base_image : String) (config : ImageConfig) (cache : Cache0Stub)
    (h : base_image = "" ∨ strContains base_image '/' = true ∨
      strContains base_image '\\' = true) :
    (PythonImageBuilder.new projectExists projectIsDir hasParent parentExists
      project_path output_path base_image config cache).isOk = false := by
  have hc : (strIsEmpty base_image ||
      (strContains base_image '/' || strContains base_image '\\')) = true := by
    rcases h with h | h | h
    · subst h; rfl
    · simp [h]
    · simp [h]
  cases projectExists <;> cases projectIsDir <;> cases hasParent <;> cases parentExists <;>
    simp [PythonImageBuilder.new, hc, Except.isOk, Except.toBool]

/-- Witness for C8: the two-segment reference myorg/img is rejected by the constructor. -/
theorem new_rejects_invalid_base_image_witness :
    (PythonImageBuilder.new true true true true "/p" "/o" "myorg/img" {} ⟨"/c"⟩).isOk = false :=
  new_rejects_invalid_base_image true true true true "/p" "/o" "myorg/img" {} ⟨"/c"⟩
    (Or.inr (Or.inl (by decide)))
/-! ## Claim C4: merging the four per-layer configs -/

/-- The last non-empty string of a list, if any (the claim's last-non-empty-wins rule). -/
def lastNonemptyStr (xs : List String) : Option String :=
  xs.foldl (fun acc s => if strIsEmpty s then acc else some s) none

/-- The last non-empty list of a list of lists, if any. -/
def lastNonemptyList (xs : List (List String)) : Option (List String) :=
  xs.foldl (fun acc s => if s.isEmpty then acc else some s) none

theorem generateConfigStep_fst (acc : List String × OCIConfig) (c : ImageConfig) :
    (generateConfigStep acc c).1 = acc.1 ++ c.env := by
  unfold generateConfigStep
  by_cases h : c.env.isEmpty
  · simp [h, List.isEmpty_iff.mp h]
  · simp [h]

theorem generateConfigStep_wd (acc : List String × OCIConfig) (c : ImageConfig) :
    (generateConfigStep acc c).2.working_dir =
      if strIsEmpty c.working_dir then acc.2.working_dir else some c.working_dir := by
  unfold generateConfigStep
  by_cases h : strIsEmpty c.working_dir <;> by_cases h2 : c.cmd.isEmpty <;> simp [h, h2]

theorem generateConfigStep_cmd (acc : List String × OCIConfig) (c : ImageConfig) :
    (generateConfigStep acc c).2.cmd =
      if c.cmd.isEmpty then acc.2.cmd else some c.cmd := by
  unfold generateConfigStep
  by_cases h : strIsEmpty c.working_dir <;> by_cases h2 : c.cmd.isEmpty <;> simp [h, h2]

theorem foldl_generateConfigStep_fst (cs : List ImageConfig) :
    ∀ acc : List String × OCIConfig,
      (cs.foldl generateConfigStep acc).1 = acc.1 ++ cs.flatMap ImageConfig.env := by
  induction cs with
  | nil => intro acc; simp
  | cons c cs ih =>
    intro acc
    simp only [List.foldl_cons, List.flatMap_cons, ih, generateConfigStep_fst,
      List.append_assoc]

theorem foldl_generateConfigStep_wd (cs : List ImageConfig) :
    ∀ acc : List String × OCIConfig,
      (cs.foldl generateConfigStep acc).2.working_dir =
        cs.foldl (fun w c => if strIsEmpty c.working_dir then w else some c.working_dir)
          acc.2.working_dir := by
  induction cs with
  | nil => intro acc; simp
  | cons c cs ih =>
    intro acc
    rw [List.foldl_cons, List.foldl_cons, ih, generateConfigStep_wd]

theorem foldl_generateConfigStep_cmd (cs : List ImageConfig) :
    ∀ acc : List String × OCIConfig,
      (cs.foldl generateConfigStep acc).2.cmd =
        cs.foldl (fun w c => if c.cmd.isEmpty then w else some c.cmd) acc.2.cmd := by
  induction cs with
  | nil => intro acc; simp
  | cons c cs ih =>
    intro acc
    rw [List.foldl_cons, List.foldl_cons, ih, generateConfigStep_cmd]

/-- C4: merging `[base, venv, deps, app]` concatenates every non-empty env list in
order and appends the three fixed interpreter variables last; `working_dir` and `cmd`
take the last non-empty value any layer supplies (or stay unset); and the entrypoint
is always the fixed shell invocation that activates the venv and runs the configured
script, ignoring every layer's own entrypoint. -/
theorem generate_config_merge (sc base venv deps app : ImageConfig) :
    (generate_config sc [base, venv, deps, app]).env =
      some (([base, venv, deps, app].flatMap ImageConfig.env) ++
        ["PYTHONUNBUFFERED=1", "PYTHONDONTWRITEBYTECODE=1", "PYTHONPATH=/app/deps:/app"]) ∧
    (generate_config sc [base, venv, deps, app]).working_dir =
      lastNonemptyStr [base.working_dir, venv.working_dir, deps.working_dir, app.working_dir] ∧
    (generate_config sc [base, venv, deps, app]).cmd =
      lastNonemptyList [base.cmd, venv.cmd, deps.cmd, app.cmd] ∧
    (generate_config sc [base, venv, deps, app]).entrypoint =
      some ["/bin/sh", "-c",
        "source /venv/bin/activate && python /app/" ++ joinSpace sc.entrypoint] := by
  refine ⟨?_, ?_, ?_, ?_⟩
  · show some _ = some _
    rw [foldl_generateConfigStep_fst]
    rfl
  · show (List.foldl generateConfigStep ([], {}) [base, venv, deps, app]).2.working_dir = _
    rw [foldl_generateConfigStep_wd]
    rfl
  · show (List.foldl generateConfigStep ([], {}) [base, venv, deps, app]).2.cmd = _
    rw [foldl_generateConfigStep_cmd]
    rfl
  · rfl
/-! ## Claim C3: `verify_layers` -/

theorem strIsEmpty_iff (s : String) : strIsEmpty s = true ↔ s = "" := by
  cases s with
  | mk data =>
    cases data with
    | nil => exact ⟨fun _ => rfl, fun _ => rfl⟩
    | cons c cs =>
      constructor
      · intro h; cases h
      · intro h; exact absurd (congrArg String.data h) (List.cons_ne_nil c cs)

theorem strIsEmpty_false_iff (s : String) : strIsEmpty s = false ↔ s ≠ "" := by
  constructor
  · intro h hs
    subst hs
    exact absurd h (by decide)
  · intro h
    cases hb : strIsEmpty s
    · rfl
    · exact absurd ((strIsEmpty_iff s).mp hb) h

/-- The inner verification verdict of `verify_single_layer` (the outer `Result` of
the Rust function is always `Ok`). -/
def innerVerdict (l : Layer) : Except String Unit :=
  match verify_single_layer l with
  | .ok r => r
  | .error e => .error e

theorem verify_single_layer_outer_ok (l : Layer) :
    verify_single_layer l = .ok (innerVerdict l) := by
  unfold innerVerdict verify_single_layer
  by_cases h1 : is_valid_media_type l.media_type <;>
    by_cases h2 : l.size == 0 <;>
      by_cases h3 : sha256Hex l.data != l.digest <;>
        by_cases h4 : strIsEmpty l.diff_id <;>
          by_cases h5 : strStartsWith l.diff_id "sha256:" <;>
            simp [h1, h2, h3, h4, h5]

theorem innerVerdict_ok_iff (l : Layer) :
    innerVerdict l = .ok () ↔
      (is_valid_media_type l.media_type = true ∧ l.size ≠ 0 ∧
        sha256Hex l.data = l.digest ∧
        (l.diff_id = "" ∨ strStartsWith l.diff_id "sha256:" = true)) := by
  unfold innerVerdict verify_single_layer
  by_cases h1 : is_valid_media_type l.media_type <;>
    by_cases h2 : l.size == 0 <;>
      by_cases h3 : sha256Hex l.data != l.digest <;>
        by_cases h4 : strIsEmpty l.diff_id <;>
          by_cases h5 : strStartsWith l.diff_id "sha256:" <;>
            simp_all [strIsEmpty_iff, strIsEmpty_false_iff, bne_iff_ne]

theorem tryJoinAll_eq (ls : List Layer) : tryJoinAll ls = .ok (ls.map innerVerdict) := by
  induction ls with
  | nil => rfl
  | cons l ls ih => simp [tryJoinAll, verify_single_layer_outer_ok l, ih]

theorem firstInnerError_ok_iff (rs : List (Except String Unit)) :
    firstInnerError rs = .ok () ↔ ∀ r ∈ rs, r = .ok () := by
  induction rs with
  | nil => simp [firstInnerError]
  | cons r rs ih =>
    cases r with
    | error e =>
      simp only [firstInnerError, List.mem_cons]
      constructor
      · intro h; cases h
      · intro h
        cases h (.error e) (Or.inl rfl)
    | ok u =>
      cases u
      simp only [firstInnerError, List.mem_cons, ih]
      constructor
      · intro h r hr
        rcases hr with hr | hr
        · rw [hr]
        · exact h r hr
      · intro h r hr; exact h r (Or.inr hr)

theorem verifyDupScan_ok_iff (ls : List Layer) :
    ∀ seen : List String,
      verifyDupScan ls seen = .ok () ↔
        ((ls.map Layer.digest).Nodup ∧ ∀ l ∈ ls, l.digest ∉ seen) := by
  induction ls with
  | nil => intro seen; simp [verifyDupScan]
  | cons l ls ih =>
    intro seen
    simp only [verifyDupScan]
    by_cases h : seen.contains l.digest
    · rw [if_pos h]
      rw [List.elem_iff] at h
      simp only [List.map_cons, List.nodup_cons, List.mem_cons]
      constructor
      · intro hfalse; cases hfalse
      · intro hc
        cases hc.2 l (Or.inl rfl) h
    · rw [if_neg h]
      rw [ih (l.digest :: seen)]
      rw [List.elem_iff] at h
      simp only [List.map_cons, List.nodup_cons, List.mem_cons, List.mem_map]
      constructor
      · intro hpair
        obtain ⟨hnd, hseen⟩ := hpair
        refine ⟨⟨?_, hnd⟩, ?_⟩
        · intro hmem
          obtain ⟨x, hx, hxd⟩ := hmem
          have hx2 := hseen x hx
          rw [hxd] at hx2
          exact hx2 (Or.inl rfl)
        · intro x hx
          rcases hx with hx | hx
          · subst hx; exact h
          · intro hmem
            have hx2 := hseen x hx
            exact hx2 (Or.inr hmem)
      · intro hpair
        obtain ⟨⟨hnotin, hnd⟩, hns⟩ := hpair
        refine ⟨hnd, ?_⟩
        intro x hx hmem
        rcases hmem with hxd | hxd
        · exact hnotin ⟨x, hx, hxd⟩
        · exact hns x (Or.inr hx) hxd

theorem verify_layers_ok_iff_general (ls : List Layer) :
    verify_layers ls = .ok () ↔
      ((ls.map Layer.digest).Nodup ∧ ∀ l ∈ ls, innerVerdict l = .ok ()) := by
  unfold verify_layers
  cases hd : verifyDupScan ls [] with
  | error e =>
    have hiff := verifyDupScan_ok_iff ls []
    rw [hd] at hiff
    constructor
    · intro h; cases h
    · intro hpair
      have hok : (Except.error e : Except String Unit) = .ok () :=
        hiff.mpr ⟨hpair.1, by simp⟩
      cases hok
  | ok u =>
    cases u
    have hiff := verifyDupScan_ok_iff ls []
    rw [hd] at hiff
    have hnd : (ls.map Layer.digest).Nodup := (hiff.mp rfl).1
    rw [tryJoinAll_eq]
    simp only [firstInnerError_ok_iff, hnd, true_and]
    constructor
    · intro h l hl
      exact h (innerVerdict l) (List.mem_map_of_mem innerVerdict hl)
    · intro h r hr
      obtain ⟨l, hl, hld⟩ := List.mem_map.mp hr
      rw [← hld]
      exact h l hl

/-- C3: `verify_layers` on the four layers succeeds exactly when all four digests are
pairwise distinct and every layer has a recognized OCI layer media type, a non-zero
size, a digest reproduced by recomputing sha256 over its data, and a well-formed
(empty or sha256-prefixed) identity digest; it fails whenever any of these
violations occurs. -/
theorem verify_layers_four_ok_iff (l1 l2 l3 l4 : Layer) :
    verify_layers [l1, l2, l3, l4] = .ok () ↔
      ((l1.digest ≠ l2.digest ∧ l1.digest ≠ l3.digest ∧ l1.digest ≠ l4.digest ∧
        l2.digest ≠ l3.digest ∧ l2.digest ≠ l4.digest ∧ l3.digest ≠ l4.digest) ∧
       (is_valid_media_type l1.media_type = true ∧ l1.size ≠ 0 ∧
         sha256Hex l1.data = l1.digest ∧
         (l1.diff_id = "" ∨ strStartsWith l1.diff_id "sha256:" = true)) ∧
       (is_valid_media_type l2.media_type = true ∧ l2.size ≠ 0 ∧
         sha256Hex l2.data = l2.digest ∧
         (l2.diff_id = "" ∨ strStartsWith l2.diff_id "sha256:" = true)) ∧
       (is_valid_media_type l3.media_type = true ∧ l3.size ≠ 0 ∧
         sha256Hex l3.data = l3.digest ∧
         (l3.diff_id = "" ∨ strStartsWith l3.diff_id "sha256:" = true)) ∧
       (is_valid_media_type l4.media_type = true ∧ l4.size ≠ 0 ∧
         sha256Hex l4.data = l4.digest ∧
         (l4.diff_id = "" ∨ strStartsWith l4.diff_id "sha256:" = true))) := by
  rw [verify_layers_ok_iff_general]
  simp only [List.map_cons, List.map_nil, List.nodup_cons, List.nodup_nil,
    List.mem_cons, List.not_mem_nil, List.mem_singleton, innerVerdict_ok_iff, or_false,
    not_or, and_true, forall_eq_or_imp, forall_eq]
  constructor
  · rintro ⟨⟨⟨h12, h13, h14⟩, ⟨h23, h24⟩, h34, -⟩, hp⟩
    exact ⟨⟨h12, h13, h14, h23, h24, h34⟩, hp⟩
  · rintro ⟨⟨h12, h13, h14, h23, h24, h34⟩, hp⟩
    exact ⟨⟨⟨h12, h13, h14⟩, ⟨h23, h24⟩, h34, not_false⟩, hp⟩
/-! ## Filesystem model and the cache (src/cache.rs)

The filesystem is an association list from absolute path to file bytes; `tokio::fs`
writes and reads succeed.  `SystemTime::now()` is the `now : Nat` parameter.
`serde_json::to_string_pretty(&self)` for the index is injected as `enc` since its
rendering is never read back by the operations under study. -/

def FS : Type := List (String × List Nat)

def fsWrite (fs : FS) (path : String) (contents : List Nat) : FS :=
  (path, contents) :: List.filter (fun e => e.1 != path) fs

def fsLookup (fs : FS) (path : String) : Option (List Nat) := List.lookup path fs

/-- `HashMap::insert`: replaces any previous binding of the key. -/
def insertAssoc (m : List (String × α)) (k : String) (v : α) : List (String × α) :=
  (k, v) :: m.filter (fun e => e.1 != k)

inductive LayerType where
  | VirtualEnv
  | Dependencies
  | Application
deriving DecidableEq, Repr

/-- `LayerMetadata` from src/cache.rs. -/
structure LayerMetadata where
  layer_type : LayerType
  source_hash : String
  dependencies : List String
deriving DecidableEq, Repr

/-- `LayerCacheEntry` from src/cache.rs. -/
structure LayerCacheEntry where
  digest : String
  path : String
  timestamp : Nat
  metadata : LayerMetadata
deriving DecidableEq, Repr

/-- `ConfigCacheEntry` from src/cache.rs. -/
structure ConfigCacheEntry where
  path : String
  timestamp : Nat
deriving DecidableEq, Repr

/-- `Cache` from src/cache.rs. -/
structure Cache where
  cache_dir : String
  layer_index : List (String × LayerCacheEntry)
  dependency_index : List (String × String)
  config_index : List (String × ConfigCacheEntry)
deriving DecidableEq, Repr

/-! ### bincode v1 (default options: fixed-width little-endian `u64` lengths) -/

/-- Little-endian byte rendering of `n` into `k` bytes. -/
def toLEBytes : Nat → Nat → List Nat
  | 0, _ => []
  | k + 1, n => n % 256 :: toLEBytes k (n / 256)

def u64le (n : Nat) : List Nat := toLEBytes 8 n

def bincodeStr (s : String) : List Nat := u64le (strBytes s).length ++ strBytes s

def bincodeBytes (b : List Nat) : List Nat := u64le b.length ++ b

/-- `bincode::serialize(&layer)`: the fields in declaration order. -/
def bincodeSerializeLayer (l : Layer) : List Nat :=
  bincodeStr l.media_type ++ bincodeStr l.digest ++ u64le l.size ++ u64le l.compressed_size ++
    bincodeBytes l.data ++ bincodeStr l.diff_id ++ u64le l.annotations.length ++
    l.annotations.flatMap (fun kv => bincodeStr kv.1 ++ bincodeStr kv.2)

def readN (n : Nat) (b : List Nat) : Option (List Nat × List Nat) :=
  if n ≤ b.length then some (b.take n, b.drop n) else none

def leToNat : List Nat → Nat
  | [] => 0
  | x :: xs => x + 256 * leToNat xs

def readU64 (b : List Nat) : Option (Nat × List Nat) :=
  match readN 8 b with
  | some (w, rest) => some (leToNat w, rest)
  | none => none

def readLenBytes (b : List Nat) : Option (List Nat × List Nat) :=
  match readU64 b with
  | some (n, rest) => readN n rest
  | none => none

def readStr (b : List Nat) : Option (String × List Nat) :=
  match readLenBytes b with
  | some (bs, rest) => some (bytesToStr bs, rest)
  | none => none

def readPairs : Nat → List Nat → Option (List (String × String) × List Nat)
  | 0, b => some ([], b)
  | k + 1, b =>
    match readStr b with
    | none => none
    | some (k1, b) =>
      match readStr b with
      | none => none
      | some (v1, b) =>
        match readPairs k b with
        | none => none
        | some (rest, b) => some ((k1, v1) :: rest, b)

/-- `bincode::deserialize::<Layer>(bytes)` (trailing bytes are ignored, as in
bincode v1). -/
def bincodeDeserializeLayer (b : List Nat) : Option Layer :=
  match readStr b with
  | none => none
  | some (media_type, b) =>
    match readStr b with
    | none => none
    | some (digest, b) =>
      match readU64 b with
      | none => none
      | some (size, b) =>
        match readU64 b with
        | none => none
        | some (compressed_size, b) =>
          match readLenBytes b with
          | none => none
          | some (data, b) =>
            match readStr b with
            | none => none
            | some (diff_id, b) =>
              match readU64 b with
              | none => none
              | some (n, b) =>
                match readPairs n b with
                | none => none
                | some (annotations, _) =>
                  some { media_type, digest, size, compressed_size, data, diff_id,
                         annotations }

/-! ### The cache operations -/

/-- src/cache.rs lines 176-181: `save_index`. -/
def Cache.save_index (enc : Cache → List Nat) (c : Cache) (fs : FS) : FS :=
  fsWrite fs (c.cache_dir ++ "/index.json") (enc c)

/-- src/cache.rs lines 132-160: `store_layer`. -/
def Cache.store_layer (enc : Cache → List Nat) (c : Cache) (fs : FS) (now : Nat)
    (key : String) (layer : Layer) (metadata : LayerMetadata) : Cache × FS :=
  let layer_path := c.cache_dir ++ "/layer_" ++ layer.digest ++ ".bin"
  let layer_data := bincodeSerializeLayer layer
  let fs2 := fsWrite fs layer_path layer_data
  let entry : LayerCacheEntry :=
    { digest := layer.digest, path := layer_path, timestamp := now, metadata := metadata }
  let c2 := { c with layer_index := insertAssoc c.layer_index key entry }
  (c2, Cache.save_index enc c2 fs2)

/-- src/cache.rs lines 104-130: `get_layer` (a missing file reads as `none`, and a
digest mismatch over the file bytes is a miss). -/
def Cache.get_layer (c : Cache) (fs : FS) (key : String) : Option Layer :=
  match List.lookup key c.layer_index with
  | none => none
  | some entry =>
    match fsLookup fs entry.path with
    | none => none
    | some data =>
      let digest := sha256Hex data
      if digest == entry.digest then bincodeDeserializeLayer data else none

/-- src/cache.rs lines 67-87: `store_config` (`serde_json::to_string_pretty` of the
config injected as `encCfg`). -/
def Cache.store_config (encCfg : ImageConfig → List Nat) (enc : Cache → List Nat)
    (c : Cache) (fs : FS) (now : Nat) (key : String) (config : ImageConfig) : Cache × FS :=
  let config_path := c.cache_dir ++ "/config_" ++ key ++ ".json"
  let fs2 := fsWrite fs config_path (encCfg config)
  let entry : ConfigCacheEntry := { path := config_path, timestamp := now }
  let c2 := { c with config_index := insertAssoc c.config_index key entry }
  (c2, Cache.save_index enc c2 fs2)

/-- `Path::extension()` of the final path component. -/
def pathExtension (p : String) : Option String :=
  let name := (splitOnChar '/' p.data).getLastD []
  match splitOnChar '.' name with
  | [] => none
  | [_] => none
  | [[], _] => none
  | parts => some (String.mk (parts.getLastD []))

/-- `read_dir(cache_dir)` membership test: a direct child of the directory. -/
def isDirectChild (dir path : String) : Bool :=
  (dir ++ "/").data.isPrefixOf path.data &&
    !(path.data.drop (dir.data.length + 1)).contains '/'

/-- The sweep predicate of src/cache.rs lines 200-222: a scanned file survives when
it is not a direct child of the cache directory, has neither a bin nor a json
extension, or is still referenced by the corresponding (already retained) index. -/
def sweptKeep (li : List (String × LayerCacheEntry)) (ci : List (String × ConfigCacheEntry))
    (dir : String) (f : String × List Nat) : Bool :=
  if isDirectChild dir f.1 then
    match pathExtension f.1 with
    | some "bin" => li.any (fun e => e.2.path == f.1)
    | some "json" => ci.any (fun e => e.2.path == f.1)
    | _ => true
  else true

/-- src/cache.rs lines 183-226: `cleanup`.  `retain` keeps entries whose
`duration_since` succeeds (`timestamp ≤ now`) with age at most `max_age`; the
directory scan then deletes unreferenced artifacts and `save_index` rewrites the
index file. -/
def Cache.cleanup (enc : Cache → List Nat) (c : Cache) (fs : FS) (now max_age : Nat) :
    Cache × FS :=
  let layer_index := c.layer_index.filter (fun e =>
    decide (e.2.timestamp ≤ now) && decide (now - e.2.timestamp ≤ max_age))
  let config_index := c.config_index.filter (fun e =>
    decide (e.2.timestamp ≤ now) && decide (now - e.2.timestamp ≤ max_age))
  let c2 := { c with layer_index := layer_index, config_index := config_index }
  let fs2 := fs.filter (sweptKeep layer_index config_index c2.cache_dir)
  (c2, Cache.save_index enc c2 fs2)
/-! ## Claim C1: the store/get round trip

`store_layer` writes `bincode::serialize(layer)` to disk but indexes the layer's own
`digest` field (the sha256 of `layer.data`), while `get_layer` checks the sha256 of
the file bytes (the serialized record) against that indexed digest.  The two hashes
are hashes of different byte strings, so the integrity check fails and the round
trip is a miss. -/

def emptyCache (dir : String) : Cache :=
  { cache_dir := dir, layer_index := [], dependency_index := [], config_index := [] }

/-- A well-formed layer (its `digest` is exactly the sha256 of its `data`) used as
the concrete round-trip input. -/
def c1Layer : Layer :=
  { media_type := "", digest := sha256Hex [], size := 0, compressed_size := 0,
    data := [], diff_id := "", annotations := [] }

def c1Metadata : LayerMetadata :=
  { layer_type := .Application, source_hash := "", dependencies := [] }

set_option maxRecDepth 4096 in
/-- C1 (the code violates the claim): storing a well-formed layer under a key and
reading the same key back on the unchanged cache returns `none`, not the layer:
`get_layer` hashes the serialized file bytes, which never reproduces the indexed
digest of the unserialized `data` field. -/
theorem store_then_get_layer_misses :
    c1Layer.digest = sha256Hex c1Layer.data ∧
    Cache.get_layer
      (Cache.store_layer (fun _ => []) (emptyCache "/cache") [] 0 "python:3.9" c1Layer
        c1Metadata).1
      (Cache.store_layer (fun _ => []) (emptyCache "/cache") [] 0 "python:3.9" c1Layer
        c1Metadata).2
      "python:3.9" = none := by
  constructor
  · rfl
  · decide
/-! ## Claim C6: `cleanup` -/

def c6Entry : LayerCacheEntry :=
  { digest := "sha256:d", path := "/cache/missing.bin", timestamp := 5, metadata := c1Metadata }

def c6Cache : Cache :=
  { cache_dir := "/cache", layer_index := [("base", c6Entry)], dependency_index := [],
    config_index := [] }

/-- C6 counterexample: on a cache whose only (young) layer entry points at a file
absent from the disk, `cleanup` returns successfully yet the surviving entry still
references the missing file — the claim's conjunct that no surviving index entry
references a missing file is false. -/
theorem cleanup_leaves_dangling_entry :
    (Cache.cleanup (fun _ => []) c6Cache [] 5 100).1.layer_index = [("base", c6Entry)] ∧
    fsLookup (Cache.cleanup (fun _ => []) c6Cache [] 5 100).2 c6Entry.path = none := by
  constructor
  · rfl
  · decide

/-- C6 as amended: after `cleanup(max_age)` every surviving entry of either index is
at most `max_age` old (so every older entry was removed), and every file on disk is
either the rewritten index file itself or kept by the sweep predicate — i.e. it is
outside the cache directory, not a bin/json artifact, or still referenced by the
corresponding surviving index; `cleanup` does not check that surviving entries
reference existing files. -/
theorem cleanup_age_and_orphan_invariants (enc : Cache → List Nat) (c : Cache) (fs : FS)
    (now max_age : Nat) :
    ((Cache.cleanup enc c fs now max_age).1.layer_index.all
      (fun e => decide (e.2.timestamp ≤ now) && decide (now - e.2.timestamp ≤ max_age))) = true ∧
    ((Cache.cleanup enc c fs now max_age).1.config_index.all
      (fun e => decide (e.2.timestamp ≤ now) && decide (now - e.2.timestamp ≤ max_age))) = true ∧
    ((Cache.cleanup enc c fs now max_age).2.all
      (fun f => (f.1 == c.cache_dir ++ "/index.json") ||
        sweptKeep (Cache.cleanup enc c fs now max_age).1.layer_index
          (Cache.cleanup enc c fs now max_age).1.config_index c.cache_dir f)) = true := by
  refine ⟨?_, ?_, ?_⟩
  · rw [List.all_eq_true]
    intro e he
    have he2 : e ∈ List.filter
        (fun e => decide (e.2.timestamp ≤ now) && decide (now - e.2.timestamp ≤ max_age))
        c.layer_index := he
    exact (List.mem_filter.mp he2).2
  · rw [List.all_eq_true]
    intro e he
    have he2 : e ∈ List.filter
        (fun e => decide (e.2.timestamp ≤ now) && decide (now - e.2.timestamp ≤ max_age))
        c.config_index := he
    exact (List.mem_filter.mp he2).2
  · rw [List.all_eq_true]
    intro f hf
    rcases List.mem_cons.mp hf with hhead | htail
    · rw [hhead]
      simp
    · have hfs2 := List.mem_of_mem_filter htail
      have hkeep := (List.mem_filter.mp hfs2).2
      have hkeep2 : sweptKeep (Cache.cleanup enc c fs now max_age).1.layer_index
          (Cache.cleanup enc c fs now max_age).1.config_index c.cache_dir f = true := hkeep
      rw [hkeep2, Bool.or_true]
/-! ## src/manifest.rs and the image-writing path of src/builder.rs

`serde_json::to_vec` / `to_vec_pretty` renderings of the external `oci_spec` config
and of the manifest are injected as `toVec`, `toVecPretty` and `manifestPretty`. -/

/-- `ConfigDescriptor` from src/manifest.rs. -/
structure ConfigDescriptor where
  config : OCIConfig
  media_type : String
  size : Nat
  digest : String
deriving DecidableEq, Repr

/-- `LayerDescriptor` from src/manifest.rs. -/
structure LayerDescriptor where
  media_type : String
  size : Nat
  digest : String
  annotations : Option (List (String × String))
  data : Option (List Nat)
deriving DecidableEq, Repr

/-- `Manifest` from src/manifest.rs. -/
structure Manifest where
  schema_version : Int
  media_type : String
  config : ConfigDescriptor
  layers : List LayerDescriptor
  annotations : Option (List (String × String))
deriving DecidableEq, Repr

/-- src/manifest.rs lines 35-61: `Manifest::new` (always `Ok` in the source). -/
def Manifest.new (config : OCIConfig) (layers : List Layer) (size : Nat) (digest : String) :
    Manifest :=
  { schema_version := 2
    media_type := "application/vnd.oci.image.manifest.v1+json"
    config :=
      { config := config
        media_type := "application/vnd.oci.image.config.v1+json"
        size := size
        digest := digest }
    layers := layers.map (fun layer =>
      { media_type := layer.media_type
        size := layer.compressed_size
        digest := layer.digest
        annotations := some layer.annotations
        data := some layer.data })
    annotations := none }

/-- src/builder.rs lines 446-454: `create_manifest` — the config digest is computed
over the compact `serde_json::to_vec` serialization. -/
def create_manifest (toVec : OCIConfig → List Nat) (config : OCIConfig)
    (layers : List Layer) : Except String Manifest :=
  let config_json := toVec config
  let config_digest := sha256Hex config_json
  .ok (Manifest.new config layers config_json.length config_digest)

/-- The pretty-printed oci-layout file body written at src/builder.rs lines 483-490. -/
def layoutBytes : List Nat := strBytes "\x7b\n  \"imageLayoutVersion\": \"1.0.0\"\n\x7d"

/-- The layer-blob loop of src/builder.rs lines 469-476: write each blob under its
digest with the sha256 marker trimmed, failing when a descriptor carries no data. -/
def writeLayerBlobs (blobs_dir : String) : List LayerDescriptor → FS → Except String Unit × FS
  | [], fs => (.ok (), fs)
  | l :: rest, fs =>
    match l.data with
    | some d => writeLayerBlobs blobs_dir rest (fsWrite fs (blobs_dir ++ "/" ++ trimShaStr l.digest) d)
    | none => (.error "Layer data is missing", fs)

/-- src/builder.rs lines 456-493: `write_image` — the config blob is written under
the hex sha256 of its pretty-printed `serde_json::to_vec_pretty` bytes. -/
def write_image (toVecPretty : OCIConfig → List Nat) (manifestPretty : Manifest → List Nat)
    (output_path : String) (config : OCIConfig) (manifest : Manifest) (fs : FS) :
    Except String Unit × FS :=
  let blobs_dir := output_path ++ "/blobs/sha256"
  let config_json := toVecPretty config
  let config_digest := hexOfBytes (sha256 config_json)
  let fs1 := fsWrite fs (blobs_dir ++ "/" ++ config_digest) config_json
  match writeLayerBlobs blobs_dir manifest.layers fs1 with
  | (.error e, fs2) => (.error e, fs2)
  | (.ok (), fs2) =>
    let fs3 := fsWrite fs2 (output_path ++ "/manifest.json") (manifestPretty manifest)
    let fs4 := fsWrite fs3 (output_path ++ "/oci-layout") layoutBytes
    (.ok (), fs4)

/-- `BuildOutput` from src/builder.rs. -/
structure BuildOutput where
  layer : Layer
  config : ImageConfig
deriving DecidableEq, Repr

/-- `BaseImage` from src/builder.rs. -/
structure BaseImage where
  layer : Layer
  config : ImageConfig
deriving DecidableEq, Repr

/-- src/builder.rs lines 180-233: the `build` orchestrator over the output
directory's filesystem state.  The outcomes of the effectful stages that do not
touch the output directory — `pull_base_image` (network and cache directory) and
the three concurrent layer builds (temporary build directory, subprocesses) — are
injected; `tokio::try_join!` propagates the first failure.  Everything after them
(verification, config merge, manifest assembly, image writing) is the embedded
code. -/
def build (toVec toVecPretty : OCIConfig → List Nat) (manifestPretty : Manifest → List Nat)
    (selfConfig : ImageConfig) (output_path : String)
    (pullRes : Except String BaseImage) (venvRes depsRes appRes : Except String BuildOutput)
    (fs : FS) : Except String Unit × FS :=
  match pullRes with
  | .error e => (.error ("Failed to pull base image: " ++ e), fs)
  | .ok base_image =>
    match venvRes, depsRes, appRes with
    | .error e, _, _ => (.error e, fs)
    | .ok _, .error e, _ => (.error e, fs)
    | .ok _, .ok _, .error e => (.error e, fs)
    | .ok venv_layer, .ok deps_layer, .ok app_layer =>
      match verify_layers [base_image.layer, venv_layer.layer, deps_layer.layer,
        app_layer.layer] with
      | .error e => (.error e, fs)
      | .ok () =>
        let config := generate_config selfConfig [base_image.config, venv_layer.config,
          deps_layer.config, app_layer.config]
        match create_manifest toVec config [base_image.layer, venv_layer.layer,
          deps_layer.layer, app_layer.layer] with
        | .error e => (.error e, fs)
        | .ok manifest => write_image toVecPretty manifestPretty output_path config manifest fs
/-! ## Claim C7: failures abort the pipeline before any OCI output is written -/

theorem writeLayerBlobs_map_ok (blobs_dir : String) (layers : List Layer) :
    ∀ fs : FS,
      (writeLayerBlobs blobs_dir (layers.map (fun layer =>
        ({ media_type := layer.media_type, size := layer.compressed_size,
           digest := layer.digest, annotations := some layer.annotations,
           data := some layer.data } : LayerDescriptor))) fs).1 = Except.ok () := by
  induction layers with
  | nil => intro fs; rfl
  | cons l ls ih =>
    intro fs
    simpa [writeLayerBlobs] using ih _

theorem write_image_manifest_new_ok (toVecPretty : OCIConfig → List Nat)
    (manifestPretty : Manifest → List Nat) (output_path : String) (config mcfg : OCIConfig)
    (layers : List Layer) (size : Nat) (digest : String) (fs : FS) :
    (write_image toVecPretty manifestPretty output_path config
      (Manifest.new mcfg layers size digest) fs).1 = .ok () := by
  unfold write_image
  have hw := writeLayerBlobs_map_ok (output_path ++ "/blobs/sha256") layers
    (fsWrite fs (output_path ++ "/blobs/sha256" ++ "/" ++
      hexOfBytes (sha256 (toVecPretty config))) (toVecPretty config))
  cases hpair : writeLayerBlobs (output_path ++ "/blobs/sha256")
      (Manifest.new mcfg layers size digest).layers
      (fsWrite fs (output_path ++ "/blobs/sha256" ++ "/" ++
        hexOfBytes (sha256 (toVecPretty config))) (toVecPretty config)) with
  | mk r fs2 =>
    have hr : r = .ok () := by
      have := hw
      rw [show (Manifest.new mcfg layers size digest).layers = layers.map (fun layer =>
        ({ media_type := layer.media_type, size := layer.compressed_size,
           digest := layer.digest, annotations := some layer.annotations,
           data := some layer.data } : LayerDescriptor)) from rfl] at hpair
      rw [hpair] at this
      exact this
    subst hr
    simp [hpair]

/-- C7: if any orchestrator stage fails, `build` returns that failure with the
output directory untouched (no partial OCI layout); when it succeeds, every stage
result was available and the four layers passed verification; and whenever the
output directory changed at all, verification had succeeded — the writing stage
never runs before a full verification pass. -/
theorem build_no_partial_output (toVec toVecPretty : OCIConfig → List Nat)
    (manifestPretty : Manifest → List Nat) (selfConfig : ImageConfig) (output_path : String)
    (pullRes : Except String BaseImage) (venvRes depsRes appRes : Except String BuildOutput)
    (fs : FS) :
    (∀ e, (build toVec toVecPretty manifestPretty selfConfig output_path
        pullRes venvRes depsRes appRes fs).1 = .error e →
      (build toVec toVecPretty manifestPretty selfConfig output_path
        pullRes venvRes depsRes appRes fs).2 = fs) ∧
    ((build toVec toVecPretty manifestPretty selfConfig output_path
        pullRes venvRes depsRes appRes fs).1 = .ok () →
      ∃ base venv deps app, pullRes = .ok base ∧ venvRes = .ok venv ∧ depsRes = .ok deps ∧
        appRes = .ok app ∧
        verify_layers [base.layer, venv.layer, deps.layer, app.layer] = .ok ()) ∧
    ((build toVec toVecPretty manifestPretty selfConfig output_path
        pullRes venvRes depsRes appRes fs).2 ≠ fs →
      (build toVec toVecPretty manifestPretty selfConfig output_path
        pullRes venvRes depsRes appRes fs).1 = .ok ()) := by
  cases pullRes with
  | error e0 => exact ⟨fun _ _ => rfl, fun h => Except.noConfusion h, fun hne => absurd rfl hne⟩
  | ok base =>
    cases venvRes with
    | error e0 => exact ⟨fun _ _ => rfl, fun h => Except.noConfusion h, fun hne => absurd rfl hne⟩
    | ok venv =>
      cases depsRes with
      | error e0 =>
        exact ⟨fun _ _ => rfl, fun h => Except.noConfusion h, fun hne => absurd rfl hne⟩
      | ok deps =>
        cases appRes with
        | error e0 =>
          exact ⟨fun _ _ => rfl, fun h => Except.noConfusion h, fun hne => absurd rfl hne⟩
        | ok app =>
          cases hv : verify_layers [base.layer, venv.layer, deps.layer, app.layer] with
          | error e0 =>
            refine ⟨?_, ?_, ?_⟩
            · intro e h
              simp [build, hv]
            · intro h
              simp [build, hv] at h
            · intro hne
              exfalso
              apply hne
              simp [build, hv]
          | ok u =>
            cases u
            have hok : (build toVec toVecPretty manifestPretty selfConfig output_path
                (.ok base) (.ok venv) (.ok deps) (.ok app) fs).1 = .ok () := by
              simp only [build, hv]
              exact write_image_manifest_new_ok toVecPretty manifestPretty output_path _ _ _ _ _ fs
            refine ⟨?_, ?_, ?_⟩
            · intro e h
              rw [hok] at h
              cases h
            · intro _
              exact ⟨base, venv, deps, app, rfl, rfl, rfl, rfl, hv⟩
            · intro _
              exact hok

/-- Witness for C7 at a concrete failing pull stage on an empty output directory. -/
theorem build_no_partial_output_witness :
    (build (fun _ => []) (fun _ => []) (fun _ => []) {} "/out" (.error "network down")
      (.error "venv") (.error "deps") (.error "app") []).2 = [] :=
  (build_no_partial_output (fun _ => []) (fun _ => []) (fun _ => []) {} "/out"
    (.error "network down") (.error "venv") (.error "deps") (.error "app") []).1
    "Failed to pull base image: network down" rfl
/-! ## Claim C10: compact vs pretty config serialization in the manifest and layout -/

theorem strAppend_data (s t : String) : (s ++ t).data = s.data ++ t.data := by
  cases s with
  | mk a =>
    cases t with
    | mk b => rfl

theorem strAppend_left_cancel {s a b : String} (h : s ++ a = s ++ b) : a = b := by
  have hd := congrArg String.data h
  rw [strAppend_data, strAppend_data] at hd
  have hab := List.append_cancel_left hd
  cases a with
  | mk da =>
    cases b with
    | mk db => rw [show da = db from hab]

theorem strAppend_assoc (a b c : String) : a ++ b ++ c = a ++ (b ++ c) := by
  cases a with
  | mk xa =>
    cases b with
    | mk xb =>
      cases c with
      | mk xc => exact congrArg String.mk (List.append_assoc xa xb xc)

def unhexDigit (c : Char) : Nat := if 97 ≤ c.toNat then c.toNat - 87 else c.toNat - 48

def unhexPairs : List Char → List Nat
  | c1 :: c2 :: rest => (16 * unhexDigit c1 + unhexDigit c2) :: unhexPairs rest
  | _ => []

theorem unhexDigit_hexDigitChar : ∀ n, n < 16 → unhexDigit (hexDigitChar n) = n := by decide

theorem unhex_hexByte (b : Nat) (hb : b < 256) :
    16 * unhexDigit (hexDigitChar (b / 16)) + unhexDigit (hexDigitChar (b % 16)) = b := by
  have h1 : b / 16 < 16 := by omega
  have h2 : b % 16 < 16 := Nat.mod_lt _ (by omega)
  rw [unhexDigit_hexDigitChar _ h1, unhexDigit_hexDigitChar _ h2]
  omega

theorem unhexPairs_flatMap (bs : List Nat) (h : ∀ b ∈ bs, b < 256) :
    unhexPairs (bs.flatMap hexByte) = bs := by
  induction bs with
  | nil => rfl
  | cons b bs ih =>
    have hb := h b (List.mem_cons_self b bs)
    have hrest : ∀ x ∈ bs, x < 256 := fun x hx => h x (List.mem_cons_of_mem _ hx)
    show (16 * unhexDigit (hexDigitChar (b / 16)) + unhexDigit (hexDigitChar (b % 16))) ::
      unhexPairs (bs.flatMap hexByte) = b :: bs
    rw [unhex_hexByte b hb, ih hrest]

theorem toBEBytes_lt (k : Nat) : ∀ (n : Nat), ∀ b ∈ toBEBytes k n, b < 256 := by
  induction k with
  | zero => intro n b hb; cases hb
  | succ k ih =>
    intro n b hb
    rcases List.mem_append.mp hb with h | h
    · exact ih _ b h
    · rw [List.mem_singleton.mp h]
      exact Nat.mod_lt _ (by omega)

theorem sha256_lt (msg : List Nat) : ∀ b ∈ sha256 msg, b < 256 := by
  intro b hb
  obtain ⟨w, _, hw⟩ := List.mem_flatMap.mp hb
  exact toBEBytes_lt 4 w b hw

theorem hexOfBytes_inj {xs ys : List Nat} (hx : ∀ b ∈ xs, b < 256) (hy : ∀ b ∈ ys, b < 256)
    (h : hexOfBytes xs = hexOfBytes ys) : xs = ys := by
  have hd : xs.flatMap hexByte = ys.flatMap hexByte := congrArg String.data h
  calc xs = unhexPairs (xs.flatMap hexByte) := (unhexPairs_flatMap xs hx).symm
    _ = unhexPairs (ys.flatMap hexByte) := by rw [hd]
    _ = ys := unhexPairs_flatMap ys hy

theorem sha256Hex_eq_iff (m1 m2 : List Nat) :
    sha256Hex m1 = sha256Hex m2 ↔ sha256 m1 = sha256 m2 := by
  constructor
  · intro h
    exact hexOfBytes_inj (sha256_lt m1) (sha256_lt m2) (strAppend_left_cancel h)
  · intro h
    unfold sha256Hex
    rw [h]

theorem fsLookup_fsWrite_self (fs : FS) (p : String) (b : List Nat) :
    fsLookup (fsWrite fs p b) p = some b := by
  simp [fsLookup, fsWrite, List.lookup]

theorem lookup_filter_ne (fs : FS) (p q : String) (h : q ≠ p) :
    List.lookup q (List.filter (fun e => e.1 != p) fs) = List.lookup q fs := by
  induction fs with
  | nil => rfl
  | cons e fs ih =>
    by_cases he : e.1 = p
    · have hfilter : (e.1 != p) = false := by simp [he]
      have hne : (q == e.1) = false := beq_eq_false_iff_ne.mpr (he ▸ h)
      rw [List.filter_cons, hfilter]
      simp only [Bool.false_eq_true, if_false, List.lookup, hne, ih]
    · have hfilter : (e.1 != p) = true := by simp [he]
      rw [List.filter_cons, hfilter]
      simp only [if_true, List.lookup, ih]

theorem fsLookup_fsWrite_ne (fs : FS) (p q : String) (b : List Nat) (h : q ≠ p) :
    fsLookup (fsWrite fs p b) q = fsLookup fs q := by
  have hne : (q == p) = false := beq_eq_false_iff_ne.mpr h
  simp only [fsLookup, fsWrite, List.lookup, hne]
  exact lookup_filter_ne fs p q h

theorem writeLayerBlobs_lookup (blobs_dir : String) (ds : List LayerDescriptor) :
    ∀ (fs : FS) (p : String), (∀ d ∈ ds, p ≠ blobs_dir ++ "/" ++ trimShaStr d.digest) →
      fsLookup (writeLayerBlobs blobs_dir ds fs).2 p = fsLookup fs p := by
  induction ds with
  | nil => intro fs p _; rfl
  | cons d ds ih =>
    intro fs p hp
    cases hd : d.data with
    | none => simp [writeLayerBlobs, hd]
    | some bytes =>
      simp only [writeLayerBlobs, hd]
      rw [ih _ p (fun x hx => hp x (List.mem_cons_of_mem _ hx))]
      exact fsLookup_fsWrite_ne fs _ p bytes (hp d (List.mem_cons_self _ _))

theorem neq_blobs_manifest (x : String) : "/blobs/sha256" ++ ("/" ++ x) ≠ "/manifest.json" := by
  intro h
  have hd := congrArg String.data h
  rw [strAppend_data] at hd
  have h2 : ('/' :: 'b' :: "lobs/sha256".data) ++ ("/" ++ x).data =
      '/' :: 'm' :: "anifest.json".data := hd
  simp only [List.cons_append, List.cons.injEq] at h2
  exact absurd h2.2.1 (by decide)

theorem neq_blobs_layout (x : String) : "/blobs/sha256" ++ ("/" ++ x) ≠ "/oci-layout" := by
  intro h
  have hd := congrArg String.data h
  rw [strAppend_data] at hd
  have h2 : ('/' :: 'b' :: "lobs/sha256".data) ++ ("/" ++ x).data =
      '/' :: 'o' :: "ci-layout".data := hd
  simp only [List.cons_append, List.cons.injEq] at h2
  exact absurd h2.2.1 (by decide)

/-- C10: the manifest's config descriptor digest is sha256 over the compact
serialization, while the blob file on disk holds the pretty-printed serialization
and is named by the hex sha256 of those pretty bytes (provided no layer blob shares
that name); and the descriptor digest names the written blob exactly when the two
hashes agree — in particular whenever the two serializations coincide. -/
theorem create_manifest_write_image_config_digests
    (toVec toVecPretty : OCIConfig → List Nat) (manifestPretty : Manifest → List Nat)
    (config : OCIConfig) (layers : List Layer) (output_path : String) (fs : FS)
    (hnc : ∀ l ∈ layers, trimShaStr l.digest ≠ hexOfBytes (sha256 (toVecPretty config))) :
    ∃ m, create_manifest toVec config layers = .ok m ∧
      m.config.digest = "sha256:" ++ hexOfBytes (sha256 (toVec config)) ∧
      fsLookup (write_image toVecPretty manifestPretty output_path config m fs).2
        (output_path ++ "/blobs/sha256" ++ "/" ++ hexOfBytes (sha256 (toVecPretty config))) =
        some (toVecPretty config) ∧
      (m.config.digest = "sha256:" ++ hexOfBytes (sha256 (toVecPretty config)) ↔
        sha256 (toVec config) = sha256 (toVecPretty config)) := by
  refine ⟨Manifest.new config layers (toVec config).length (sha256Hex (toVec config)),
    rfl, rfl, ?_, sha256Hex_eq_iff (toVec config) (toVecPretty config)⟩
  unfold write_image
  have hblob := writeLayerBlobs_map_ok (output_path ++ "/blobs/sha256") layers
    (fsWrite fs (output_path ++ "/blobs/sha256" ++ "/" ++
      hexOfBytes (sha256 (toVecPretty config))) (toVecPretty config))
  cases hpair : writeLayerBlobs (output_path ++ "/blobs/sha256")
      (Manifest.new config layers (toVec config).length (sha256Hex (toVec config))).layers
      (fsWrite fs (output_path ++ "/blobs/sha256" ++ "/" ++
        hexOfBytes (sha256 (toVecPretty config))) (toVecPretty config)) with
  | mk r fs2 =>
    have hr : r = .ok () := by
      have hx := hblob
      rw [show (Manifest.new config layers (toVec config).length
        (sha256Hex (toVec config))).layers = layers.map (fun layer =>
          ({ media_type := layer.media_type, size := layer.compressed_size,
             digest := layer.digest, annotations := some layer.annotations,
             data := some layer.data } : LayerDescriptor)) from rfl] at hpair
      rw [hpair] at hx
      exact hx
    subst hr
    simp only [hpair]
    have hne_manifest : output_path ++ "/blobs/sha256" ++ "/" ++
        hexOfBytes (sha256 (toVecPretty config)) ≠ output_path ++ "/manifest.json" := by
      intro h
      rw [strAppend_assoc, strAppend_assoc] at h
      exact neq_blobs_manifest _ (strAppend_left_cancel h)
    have hne_layout : output_path ++ "/blobs/sha256" ++ "/" ++
        hexOfBytes (sha256 (toVecPretty config)) ≠ output_path ++ "/oci-layout" := by
      intro h
      rw [strAppend_assoc, strAppend_assoc] at h
      exact neq_blobs_layout _ (strAppend_left_cancel h)
    rw [fsLookup_fsWrite_ne _ _ _ _ hne_layout, fsLookup_fsWrite_ne _ _ _ _ hne_manifest]
    have hfs2 : fs2 = (writeLayerBlobs (output_path ++ "/blobs/sha256")
        (Manifest.new config layers (toVec config).length
          (sha256Hex (toVec config))).layers
        (fsWrite fs (output_path ++ "/blobs/sha256" ++ "/" ++
          hexOfBytes (sha256 (toVecPretty config))) (toVecPretty config))).2 := by
      rw [hpair]
    rw [hfs2]
    rw [writeLayerBlobs_lookup _ _ _ _ ?_]
    · exact fsLookup_fsWrite_self _ _ _
    · intro d hd
      obtain ⟨l, hl, hld⟩ := List.mem_map.mp hd
      intro hcontra
      apply hnc l hl
      have := strAppend_left_cancel (s := output_path ++ "/blobs/sha256" ++ "/")
        (a := hexOfBytes (sha256 (toVecPretty config))) (b := trimShaStr d.digest) ?_
      · rw [← hld] at this
        exact this.symm
      · rw [strAppend_assoc, strAppend_assoc] at hcontra ⊢
        exact hcontra

/-- Witness for C10 with an empty layer list and distinct injected serializers. -/
theorem create_manifest_write_image_config_digests_witness :
    ∃ m, create_manifest (fun _ => []) {} [] = .ok m ∧
      m.config.digest = "sha256:" ++ hexOfBytes (sha256 ((fun (_ : OCIConfig) => []) {})) ∧
      fsLookup (write_image (fun _ => [0]) (fun _ => []) "/out" {} m []).2
        ("/out" ++ "/blobs/sha256" ++ "/" ++
          hexOfBytes (sha256 ((fun (_ : OCIConfig) => [0]) {}))) =
        some ((fun (_ : OCIConfig) => [0]) {}) ∧
      (m.config.digest = "sha256:" ++ hexOfBytes (sha256 ((fun (_ : OCIConfig) => [0]) {})) ↔
        sha256 ((fun (_ : OCIConfig) => []) {}) = sha256 ((fun (_ : OCIConfig) => [0]) {})) :=
  create_manifest_write_image_config_digests (fun _ => []) (fun _ => [0]) (fun _ => [])
    {} [] "/out" [] (by simp)
